import Mathlib

/-!
Verification development for the `elizaos-plugin-mefs` storage client.

The TypeScript sources are shallowly embedded:

* `StorageService` (clients/storage.ts) becomes a pure state-passing
  development: the mutable fields `mefsConfig`, `accessToken`,
  `refreshToken` become a `ClientState` record, and every method returns
  a `CallResult` holding its outcome (`Except MefsError α` for
  `return`/`throw`), the updated client state, the updated state of the
  remote peer, and the ordered list of HTTP requests it sent.
* `fetch` is a parameter `σ → HttpRequest → HttpResponse × σ`: the
  remote peer is an arbitrary deterministic responder threaded through
  the call.  Signing with `ethers.Wallet.signMessage` is likewise a
  function parameter (it is a third-party library call).
* The Zod schema and `privateKeyToAddress` from schemes.ts become
  boolean/`Except` functions over `String`.
* The two action handlers (actions/*.ts) are embedded with the storage
  service call abstracted as an oracle, since the claims about them
  concern control flow around those calls.

JavaScript truthiness on optional strings (`null`/`undefined`/`""` are
falsy) is modelled by `truthy : Option String → Bool`.
-/

/-- `MefsConfig` from schemes.ts: the validated configuration record. -/
structure MefsConfig where
  MEFS_API_URL : String
  MEFS_WALLET_ADDRESS : String
  MEFS_PRIVATE_KEY : String
  MEFS_CHAIN_ID : Nat
  MEFS_ORIGIN : String
deriving Repr, DecidableEq

/-- The mutable fields of a `StorageService` instance. -/
structure ClientState where
  mefsConfig : Option MefsConfig
  accessToken : Option String
  refreshToken : Option String
deriving Repr, DecidableEq

/-- JavaScript truthiness of a `string | null | undefined` value:
`null`, `undefined` and `""` are falsy. -/
def truthy : Option String → Bool
  | none => false
  | some s => decide (s ≠ "")

/-- The errors the storage client throws.  In the source each is a plain
`Error` whose message string embeds the HTTP status and body where
applicable; the constructors carry the same data and
`MefsError.message` reproduces the exact message text. -/
inductive MefsError where
  | configNotInitialized
  | runtimeNotAvailable
  | invalidConfiguration (msg : String)
  | challengeRequestFailed (status : Nat) (body : String)
  | loginFailed (status : Nat) (body : String)
  | notAuthenticated
  | uploadFailed (status : Nat) (body : String)
  | retrieveFailed (status : Nat) (body : String)
deriving Repr, DecidableEq

/-- The exact `Error` message strings thrown by the source. -/
def MefsError.message : MefsError → String
  | .configNotInitialized => "Storage config not initialized"
  | .runtimeNotAvailable => "Runtime not available"
  | .invalidConfiguration m => m
  | .challengeRequestFailed s b => "Failed to get challenge: " ++ toString s ++ " " ++ b
  | .loginFailed s b => "Failed to login: " ++ toString s ++ " " ++ b
  | .notAuthenticated => "Not authenticated. Please initialize storage first."
  | .uploadFailed s b => "Failed to upload file: " ++ toString s ++ " " ++ b
  | .retrieveFailed s b => "Failed to retrieve file: " ++ toString s ++ " " ++ b

/-- The HTTP status carried by an error, when it has one. -/
def MefsError.httpStatus : MefsError → Option Nat
  | .challengeRequestFailed s _ => some s
  | .loginFailed s _ => some s
  | .uploadFailed s _ => some s
  | .retrieveFailed s _ => some s
  | _ => none

/-- The HTTP response body carried by an error, when it has one. -/
def MefsError.httpBody : MefsError → Option String
  | .challengeRequestFailed _ b => some b
  | .loginFailed _ b => some b
  | .uploadFailed _ b => some b
  | .retrieveFailed _ b => some b
  | _ => none

inductive HttpMethod where
  | get
  | post
deriving Repr, DecidableEq

/-- One entry of the multipart form body built by `uploadFile`.  Both
FormData implementations chosen at lines 160–185 append the same
logical parts, so a single representation suffices. -/
inductive FormEntry where
  | filePart (bytes : List Nat) (filename : String) (contentType : String)
  | field (name : String) (value : String)
deriving Repr, DecidableEq

/-- An HTTP request as sent by the client.  `jsonMessage`/`jsonSignature`
model the JSON body of the login POST; `form` models the multipart body
of the upload POST. -/
structure HttpRequest where
  method : HttpMethod
  url : String
  headers : List (String × String) := []
  jsonMessage : Option String := none
  jsonSignature : Option String := none
  form : Option (List FormEntry) := none
deriving Repr, DecidableEq

/-- An HTTP response as consumed by the client.  The fields model the
reads the source performs: `.text()` (`textBody`), `.json()` projected
at the fields the source looks at (`jsonAccessToken`, `jsonRefreshToken`
for login, `jsonMid` for upload), and `.arrayBuffer()` (`byteBody`). -/
structure HttpResponse where
  status : Nat
  textBody : String := ""
  jsonAccessToken : Option String := none
  jsonRefreshToken : Option String := none
  jsonMid : Option String := none
  byteBody : List Nat := []
deriving Repr, DecidableEq

/-- `Response.ok` of the Fetch API: status in the range 200–299. -/
def HttpResponse.ok (r : HttpResponse) : Bool :=
  decide (200 ≤ r.status) && decide (r.status < 300)

/-- Outcome of one `StorageService` method call: the returned or thrown
value, the instance state after the call, the remote peer state after
the call, and the HTTP requests sent, in order. -/
structure CallResult (σ : Type) (α : Type) where
  result : Except MefsError α
  state : ClientState
  server : σ
  requests : List HttpRequest

/-- The challenge request of `loginToMEFS` (storage.ts lines 52–63):
GET `{api}/challenge?address=...&chainid=...` with an `Origin` header of
`MEFS_ORIGIN || MEFS_API_URL`. -/
def challengeRequest (cfg : MefsConfig) : HttpRequest :=
  { method := .get
  , url := cfg.MEFS_API_URL ++ "/challenge?address=" ++ cfg.MEFS_WALLET_ADDRESS
      ++ "&chainid=" ++ toString cfg.MEFS_CHAIN_ID
  , headers := [("Origin",
      if truthy (some cfg.MEFS_ORIGIN) then cfg.MEFS_ORIGIN else cfg.MEFS_API_URL)] }

/-- The login exchange request of `loginToMEFS` (lines 84–95): POST
`{api}/login` with JSON body `{message, signature}`. -/
def loginRequest (cfg : MefsConfig) (challengeMessage signature : String) : HttpRequest :=
  { method := .post
  , url := cfg.MEFS_API_URL ++ "/login"
  , headers := [("Content-Type", "application/json")]
  , jsonMessage := some challengeMessage
  , jsonSignature := some signature }

/-- `StorageService.loginToMEFS` (lines 46–110).  `sign pk msg` models
`new ethers.Wallet(pk).signMessage(msg)`; `fetch` models the network.
On a non-2xx challenge or login response the method throws and the
token fields are left untouched; on success both token fields are
assigned from the login response JSON (lines 103–104). -/
def loginToMEFS {σ : Type} (sign : String → String → String)
    (fetch : σ → HttpRequest → HttpResponse × σ)
    (st : ClientState) (srv : σ) : CallResult σ Unit :=
  match st.mefsConfig with
  | none => ⟨.error .configNotInitialized, st, srv, []⟩
  | some cfg =>
    let req1 := challengeRequest cfg
    let resp1 := (fetch srv req1).1
    let srv1 := (fetch srv req1).2
    if resp1.ok then
      let challengeMessage := resp1.textBody
      let signature := sign cfg.MEFS_PRIVATE_KEY challengeMessage
      let req2 := loginRequest cfg challengeMessage signature
      let resp2 := (fetch srv1 req2).1
      let srv2 := (fetch srv1 req2).2
      if resp2.ok then
        ⟨.ok (),
         { st with accessToken := resp2.jsonAccessToken,
                   refreshToken := resp2.jsonRefreshToken },
         srv2, [req1, req2]⟩
      else
        ⟨.error (.loginFailed resp2.status resp2.textBody), st, srv2, [req1, req2]⟩
    else
      ⟨.error (.challengeRequestFailed resp1.status resp1.textBody), st, srv1, [req1]⟩

/-- `StorageService.getAuthHeaders` (lines 115–122): throws when the
access token is falsy, else returns the bearer header. -/
def getAuthHeaders (st : ClientState) : Except MefsError (List (String × String)) :=
  match st.accessToken with
  | none => .error .notAuthenticated
  | some t => if t = "" then .error .notAuthenticated
              else .ok [("Authorization", "Bearer " ++ t)]

/-- `StorageService.stop` (lines 124–126): sets `mefsConfig` to `null`.
Nothing else is touched. -/
def ClientState.stop (st : ClientState) : ClientState :=
  { st with mefsConfig := none }

/-- The multipart body built by `uploadFile` (lines 174–191): a `file`
part, then `public=true` when `publicFile`, else a `key` field when
`key` is truthy. -/
def buildUploadForm (buffer : List Nat) (filename : String)
    (publicFile : Bool) (key : Option String) : List FormEntry :=
  [.filePart buffer filename "application/octet-stream"] ++
    (if publicFile then [.field "public" "true"]
     else if truthy key then [.field "key" (key.getD "")]
     else [])

/-- The upload request (lines 203–207): POST `{api}/mefs/` with the
auth headers and the multipart body. -/
def uploadRequest (cfg : MefsConfig) (authHeaders : List (String × String))
    (form : List FormEntry) : HttpRequest :=
  { method := .post
  , url := cfg.MEFS_API_URL ++ "/mefs/"
  , headers := authHeaders
  , form := some form }

/-- `StorageService.uploadFile` (lines 143–221): throws when the config
is absent; logs in first when the access token is falsy; obtains the
auth headers (throwing `notAuthenticated` when the token is still
falsy) before the request is sent; sends the multipart POST; throws
`uploadFailed status body` on a non-2xx response; returns the `Mid`
field of the response JSON on success. -/
def uploadFile {σ : Type} (sign : String → String → String)
    (fetch : σ → HttpRequest → HttpResponse × σ)
    (st : ClientState) (srv : σ)
    (buffer : List Nat) (filename : String)
    (publicFile : Bool) (key : Option String) : CallResult σ (Option String) :=
  match st.mefsConfig with
  | none => ⟨.error .configNotInitialized, st, srv, []⟩
  | some cfg =>
    let L : CallResult σ Unit :=
      if truthy st.accessToken then ⟨.ok (), st, srv, []⟩
      else loginToMEFS sign fetch st srv
    match L.result with
    | .error e => ⟨.error e, L.state, L.server, L.requests⟩
    | .ok _ =>
      match getAuthHeaders L.state with
      | .error e => ⟨.error e, L.state, L.server, L.requests⟩
      | .ok headers =>
        let req := uploadRequest cfg headers (buildUploadForm buffer filename publicFile key)
        let resp := (fetch L.server req).1
        let srv2 := (fetch L.server req).2
        if resp.ok then ⟨.ok resp.jsonMid, L.state, srv2, L.requests ++ [req]⟩
        else ⟨.error (.uploadFailed resp.status resp.textBody), L.state, srv2,
              L.requests ++ [req]⟩

/-- The retrieve request (lines 238–249): GET `{api}/mefs/{cid}` with
`?key={key}` appended when `key` is truthy, and the auth headers. -/
def retrieveRequest (cfg : MefsConfig) (cid : String) (key : Option String)
    (authHeaders : List (String × String)) : HttpRequest :=
  { method := .get
  , url := cfg.MEFS_API_URL ++ "/mefs/" ++ cid
      ++ (if truthy key then "?key=" ++ key.getD "" else "")
  , headers := authHeaders }

/-- `StorageService.retrieveFile` (lines 229–264): same config and
login preconditions as `uploadFile`; sends the GET; throws
`retrieveFailed status body` on a non-2xx response; returns the raw
response bytes on success. -/
def retrieveFile {σ : Type} (sign : String → String → String)
    (fetch : σ → HttpRequest → HttpResponse × σ)
    (st : ClientState) (srv : σ)
    (cid : String) (key : Option String) : CallResult σ (List Nat) :=
  match st.mefsConfig with
  | none => ⟨.error .configNotInitialized, st, srv, []⟩
  | some cfg =>
    let L : CallResult σ Unit :=
      if truthy st.accessToken then ⟨.ok (), st, srv, []⟩
      else loginToMEFS sign fetch st srv
    match L.result with
    | .error e => ⟨.error e, L.state, L.server, L.requests⟩
    | .ok _ =>
      match getAuthHeaders L.state with
      | .error e => ⟨.error e, L.state, L.server, L.requests⟩
      | .ok headers =>
        let req := retrieveRequest cfg cid key headers
        let resp := (fetch L.server req).1
        let srv2 := (fetch L.server req).2
        if resp.ok then ⟨.ok resp.byteBody, L.state, srv2, L.requests ++ [req]⟩
        else ⟨.error (.retrieveFailed resp.status resp.textBody), L.state, srv2,
              L.requests ++ [req]⟩

/-- `StorageService.initializeStorage` (lines 21–41): returns at once
when both `mefsConfig` and `accessToken` are truthy; otherwise checks
the runtime, validates the configuration (`validateConfig` is the
outcome of `validateStorageClientConfig`, which performs no network
I/O), stores it, and runs the full login protocol. -/
def initializeStorage {σ : Type} (sign : String → String → String)
    (fetch : σ → HttpRequest → HttpResponse × σ)
    (runtimeAvailable : Bool)
    (validateConfig : Except MefsError MefsConfig)
    (st : ClientState) (srv : σ) : CallResult σ Unit :=
  if st.mefsConfig.isSome && truthy st.accessToken then ⟨.ok (), st, srv, []⟩
  else if !runtimeAvailable then ⟨.error .runtimeNotAvailable, st, srv, []⟩
  else
    match validateConfig with
    | .error e => ⟨.error e, st, srv, []⟩
    | .ok cfg => loginToMEFS sign fetch { st with mefsConfig := some cfg } srv

/-- A hexadecimal digit, as matched by the character class `[0-9a-fA-F]`
(equivalently `[a-fA-F0-9]`) in schemes.ts. -/
def isHexDigit (c : Char) : Bool :=
  (decide ('0' ≤ c) && decide (c ≤ '9')) ||
  (decide ('a' ≤ c) && decide (c ≤ 'f')) ||
  (decide ('A' ≤ c) && decide (c ≤ 'F'))

/-- The `MEFS_PRIVATE_KEY` test of `storageClientEnvSchema`
(schemes.ts lines 11–14): the regex `^[a-fA-F0-9]{64}$`, i.e. exactly
64 hex digits with nothing else. -/
def storageClientEnvSchemaKeyOk (s : String) : Bool :=
  decide (s.length = 64) && s.data.all isHexDigit

/-- The `0x`-stripping step of `privateKeyToAddress` (schemes.ts line
90): drop a leading `"0x"` when present.  Stated on the character list
(`'0'`/`'x'` are ASCII, so character and byte operations coincide). -/
def cleanHexKey (s : String) : String :=
  match s.data with
  | '0' :: 'x' :: rest => String.mk rest
  | _ => s

/-- The regex `^[0-9a-fA-F]+$` of `privateKeyToAddress` (schemes.ts
line 93): one or more hex digits and nothing else. -/
def nonEmptyHex (s : String) : Bool :=
  decide (1 ≤ s.length) && s.data.all isHexDigit

/-- The errors `privateKeyToAddress` throws. -/
inductive KeyError where
  | emptyKey
  | invalidHexFormat
  | walletError (msg : String)
deriving Repr, DecidableEq

/-- `privateKeyToAddress` (schemes.ts lines 84–104).  `walletAddress`
models `new ethers.Wallet(k).address` (a third-party call): it either
yields the address or throws, and its failure is wrapped as a
conversion error (lines 101–103).  The function's own validation
rejects the empty string and any non-hex remainder after stripping an
optional `0x` prefix; it imposes no length requirement of its own. -/
def privateKeyToAddress (walletAddress : String → Except String String)
    (privateKeyHex : String) : Except KeyError String :=
  if privateKeyHex = "" then .error .emptyKey
  else
    let cleanKey := cleanHexKey privateKeyHex
    if nonEmptyHex cleanKey then
      match walletAddress ("0x" ++ cleanKey) with
      | .ok a => .ok a
      | .error m => .error (.walletError m)
    else .error .invalidHexFormat

/-- Modelled from the spec: the remote MEFS store is not part of this
repository; spec §6 describes its wire protocol (`POST {api}/mefs/`
returns the CID of the uploaded bytes, `GET {api}/mefs/{cid}` returns
the stored bytes, 404 when absent) and §3 calls it content-addressed.
The state is the list of stored `(cid, bytes)` pairs, newest first;
`cidOf` is the store's content-addressing function.  A GET is served by
the first stored pair whose address matches the requested URL. -/
def mefsStoreFetch (cidOf : List Nat → String) (api : String) :
    List (String × List Nat) → HttpRequest → HttpResponse × List (String × List Nat) :=
  fun store req =>
    match req.method, req.form with
    | .post, some (.filePart bytes _ _ :: _) =>
        ({ status := 200, jsonMid := some (cidOf bytes) }, (cidOf bytes, bytes) :: store)
    | .get, _ =>
        match store.find? (fun p => req.url == api ++ "/mefs/" ++ p.1) with
        | some p => ({ status := 200, byteBody := p.2 }, store)
        | none => ({ status := 404, textBody := "file not found" }, store)
    | _, _ => ({ status := 400, textBody := "bad request" }, store)

/-- Result of the `STORAGE_RETRIEVE` action handler: the `success`
flag, the `retrievedFiles` list (CID paired with the retrieved bytes)
and the `notFoundFiles` list. -/
structure RetrieveActionResult where
  success : Bool
  retrieved : List (String × List Nat)
  notFound : List String
deriving Repr, DecidableEq

/-- The per-CID loop of `retrieveAction.handler` (actions, lines
104–134): each CID is attempted; a success is appended to
`retrievedFiles`, a failure is caught and the CID appended to
`notFoundFiles`, and the loop continues. -/
def retrieveLoop (retrieve : String → Except MefsError (List Nat)) :
    List String → List (String × List Nat) × List String
  | [] => ([], [])
  | cid :: rest =>
    match retrieve cid with
    | .ok bytes =>
      let p := retrieveLoop retrieve rest
      ((cid, bytes) :: p.1, p.2)
    | .error _ =>
      let p := retrieveLoop retrieve rest
      (p.1, cid :: p.2)

/-- `retrieveAction.handler` (actions, lines 49–193).  The storage
service lookup, `initializeStorage` and `retrieveFile` are abstracted
as oracles: `serviceAvailable` is whether `runtime.getService` finds
the service, `initResult` the outcome of `initializeStorage`, and
`retrieve` the per-CID outcome of `storageService.retrieveFile`.  The
handler fails when no CID was supplied, the service is missing,
initialization throws, or every CID failed; otherwise it succeeds with
the per-CID outcomes.  (The UTF-8/base64 rendering of the retrieved
bytes into the reply text is presentation and is not modelled.) -/
def retrieveHandler (serviceAvailable : Bool)
    (initResult : Except MefsError Unit)
    (retrieve : String → Except MefsError (List Nat))
    (cids : List String) : RetrieveActionResult :=
  if cids = [] then ⟨false, [], []⟩
  else if !serviceAvailable then ⟨false, [], []⟩
  else
    match initResult with
    | .error _ => ⟨false, [], []⟩
    | .ok _ =>
      let p := retrieveLoop retrieve cids
      if p.1 = [] then ⟨false, p.1, p.2⟩
      else ⟨true, p.1, p.2⟩

/-- A message attachment as consumed by `uploadAction.handler`. -/
structure Attachment where
  url : String
  title : Option String
deriving Repr, DecidableEq

/-- `attached.title || attached.url.split('/').pop() || 'file'`
(actions, line 327). -/
def attachmentFilename (a : Attachment) : String :=
  if truthy a.title then a.title.getD ""
  else
    let seg := ((a.url.splitOn "/").getLast?).getD ""
    if seg = "" then "file" else seg

/-- A response memory as consumed by `uploadAction.handler`: only its
`content.text` field is read. -/
structure ResponseMemory where
  text : Option String
deriving Repr, DecidableEq

/-- The attachment loop of `uploadAction.handler` (actions, lines
324–341): each attachment's file is read and uploaded privately; an
upload error is rethrown, aborting the handler. -/
def uploadAttachmentsLoop (readFile : String → List Nat)
    (upload : List Nat → String → Except MefsError String) :
    List Attachment → Except MefsError (List String)
  | [] => .ok []
  | a :: rest =>
    match upload (readFile a.url) (attachmentFilename a) with
    | .error e => .error e
    | .ok cid =>
      match uploadAttachmentsLoop readFile upload rest with
      | .error e => .error e
      | .ok cids => .ok (cid :: cids)

/-- UTF-8 bytes of a string, as `Buffer.from(text, 'utf-8')`. -/
def utf8Bytes (s : String) : List Nat :=
  s.toUTF8.toList.map (fun b => b.toNat)

/-- The response-text loop of `uploadAction.handler` (actions, lines
344–366): each response with a truthy `content.text` is uploaded
privately under a generated `response_....txt` name (`respName`
models the `Date.now()`-based name of the i-th uploaded text); an
upload error is rethrown, aborting the handler. -/
def uploadResponsesLoop (upload : List Nat → String → Except MefsError String)
    (respName : Nat → String) :
    Nat → List ResponseMemory → Except MefsError (List String)
  | _, [] => .ok []
  | i, r :: rest =>
    if truthy r.text then
      match upload (utf8Bytes (r.text.getD "")) (respName i) with
      | .error e => .error e
      | .ok cid =>
        match uploadResponsesLoop upload respName (i + 1) rest with
        | .error e => .error e
        | .ok cids => .ok (cid :: cids)
    else uploadResponsesLoop upload respName i rest

/-- Result of the `STORAGE_UPLOAD` action handler: the `success` flag
and the accumulated `cidResults`. -/
structure UploadActionResult where
  success : Bool
  cids : List String
deriving Repr, DecidableEq

/-- `uploadAction.handler` (actions, lines 260–405).  The guard at line
270 fires only when `attachments` is present and empty
(`attachments && attachments.length === 0`); then the service lookup
and `initializeStorage` run; then the attachment loop over
`attachments || []` and the response-text loop accumulate CIDs; any
thrown error is caught and turned into a failure result. -/
def uploadHandler (serviceAvailable : Bool)
    (initResult : Except MefsError Unit)
    (readFile : String → List Nat)
    (upload : List Nat → String → Except MefsError String)
    (respName : Nat → String)
    (attachments : Option (List Attachment))
    (responses : List ResponseMemory) : UploadActionResult :=
  match attachments with
  | some [] => ⟨false, []⟩
  | _ =>
    if !serviceAvailable then ⟨false, []⟩
    else
      match initResult with
      | .error _ => ⟨false, []⟩
      | .ok _ =>
        match uploadAttachmentsLoop readFile upload (attachments.getD []) with
        | .error _ => ⟨false, []⟩
        | .ok cids1 =>
          match uploadResponsesLoop upload respName 0 responses with
          | .error _ => ⟨false, []⟩
          | .ok cids2 => ⟨true, cids1 ++ cids2⟩

/-! ### Concrete values used by witnesses and counterexamples -/

/-- A 64-character hex key. -/
def hex64Ex : String := "aaaaaaaaaaaaaaaaaaaaaaaaaaaaaaaaaaaaaaaaaaaaaaaaaaaaaaaaaaaaaaaa"

def cfgEx : MefsConfig :=
  ⟨"https://api.example", "0xWallet", hex64Ex, 985, "https://origin.example"⟩

/-- An authenticated client state. -/
def stEx : ClientState := ⟨some cfgEx, some "tok1", some "ref1"⟩

def signEx : String → String → String := fun _ msg => "sig:" ++ msg

def resp401Ex : HttpResponse := ⟨401, "unauthorized", none, none, none, []⟩

/-- A responder that rejects every request as unauthorized. -/
def fetch401 : Unit → HttpRequest → HttpResponse × Unit := fun u _ => (resp401Ex, u)

def respOkEx : HttpResponse := ⟨200, "challenge-text", some "tok2", some "ref2", some "bafy123", [72, 73]⟩

/-- A responder that accepts every request. -/
def fetchOk : Unit → HttpRequest → HttpResponse × Unit := fun u _ => (respOkEx, u)

/-- A model of `new ethers.Wallet(k).address`: accepts exactly the
`0x`-prefixed 32-byte keys (66 characters), as ethers does. -/
def walletEx : String → Except String String :=
  fun s => if s.length = 66 then .ok "0xAddr" else .error "invalid private key"

/-! ### Helper lemmas -/

theorem truthy_some_ne (t : String) (h : t ≠ "") : truthy (some t) = true := by
  simp [truthy, h]

theorem truthy_exists {o : Option String} (h : truthy o = true) :
    ∃ t, o = some t ∧ t ≠ "" := by
  cases o with
  | none => simp [truthy] at h
  | some t => exact ⟨t, rfl, by simpa [truthy] using h⟩

theorem getAuthHeaders_some (st : ClientState) (t : String)
    (ht : st.accessToken = some t) (hne : t ≠ "") :
    getAuthHeaders st = .ok [("Authorization", "Bearer " ++ t)] := by
  simp [getAuthHeaders, ht, hne]

theorem getAuthHeaders_absent (st : ClientState) (h : truthy st.accessToken = false) :
    getAuthHeaders st = .error .notAuthenticated := by
  cases ho : st.accessToken with
  | none => simp [getAuthHeaders, ho]
  | some t =>
    rw [ho] at h
    simp only [truthy, decide_eq_false_iff_not, not_not] at h
    simp [getAuthHeaders, ho, h]

theorem uploadFile_token_present {σ : Type} (sign : String → String → String)
    (fetch : σ → HttpRequest → HttpResponse × σ)
    (st : ClientState) (srv : σ) (b : List Nat) (f : String) (p : Bool) (k : Option String)
    (cfg : MefsConfig) (hcfg : st.mefsConfig = some cfg)
    (t : String) (ht : st.accessToken = some t) (hne : t ≠ "") :
    uploadFile sign fetch st srv b f p k =
      (if (fetch srv (uploadRequest cfg [("Authorization", "Bearer " ++ t)]
             (buildUploadForm b f p k))).1.ok then
         ⟨.ok (fetch srv (uploadRequest cfg [("Authorization", "Bearer " ++ t)]
                 (buildUploadForm b f p k))).1.jsonMid, st,
          (fetch srv (uploadRequest cfg [("Authorization", "Bearer " ++ t)]
             (buildUploadForm b f p k))).2,
          [uploadRequest cfg [("Authorization", "Bearer " ++ t)] (buildUploadForm b f p k)]⟩
       else
         ⟨.error (.uploadFailed
            (fetch srv (uploadRequest cfg [("Authorization", "Bearer " ++ t)]
               (buildUploadForm b f p k))).1.status
            (fetch srv (uploadRequest cfg [("Authorization", "Bearer " ++ t)]
               (buildUploadForm b f p k))).1.textBody), st,
          (fetch srv (uploadRequest cfg [("Authorization", "Bearer " ++ t)]
             (buildUploadForm b f p k))).2,
          [uploadRequest cfg [("Authorization", "Bearer " ++ t)] (buildUploadForm b f p k)]⟩) := by
  have htt : truthy st.accessToken = true := by rw [ht]; exact truthy_some_ne t hne
  simp [uploadFile, hcfg, htt, getAuthHeaders_some st t ht hne]

theorem retrieveFile_token_present {σ : Type} (sign : String → String → String)
    (fetch : σ → HttpRequest → HttpResponse × σ)
    (st : ClientState) (srv : σ) (cid : String) (k : Option String)
    (cfg : MefsConfig) (hcfg : st.mefsConfig = some cfg)
    (t : String) (ht : st.accessToken = some t) (hne : t ≠ "") :
    retrieveFile sign fetch st srv cid k =
      (if (fetch srv (retrieveRequest cfg cid k [("Authorization", "Bearer " ++ t)])).1.ok then
         ⟨.ok (fetch srv (retrieveRequest cfg cid k
                 [("Authorization", "Bearer " ++ t)])).1.byteBody, st,
          (fetch srv (retrieveRequest cfg cid k [("Authorization", "Bearer " ++ t)])).2,
          [retrieveRequest cfg cid k [("Authorization", "Bearer " ++ t)]]⟩
       else
         ⟨.error (.retrieveFailed
            (fetch srv (retrieveRequest cfg cid k
               [("Authorization", "Bearer " ++ t)])).1.status
            (fetch srv (retrieveRequest cfg cid k
               [("Authorization", "Bearer " ++ t)])).1.textBody), st,
          (fetch srv (retrieveRequest cfg cid k [("Authorization", "Bearer " ++ t)])).2,
          [retrieveRequest cfg cid k [("Authorization", "Bearer " ++ t)]]⟩) := by
  have htt : truthy st.accessToken = true := by rw [ht]; exact truthy_some_ne t hne
  simp [retrieveFile, hcfg, htt, getAuthHeaders_some st t ht hne]

/-! ### C5: initializeStorage is a no-op when already initialized -/

/-- C5: calling `initializeStorage` while the client already holds a
validated configuration and a (truthy) access token returns
immediately: the result is success, the client state and the remote
peer are unchanged, and no HTTP request is sent. -/
theorem initializeStorage_noop_when_ready {σ : Type} (sign : String → String → String)
    (fetch : σ → HttpRequest → HttpResponse × σ)
    (runtimeAvailable : Bool) (validateConfig : Except MefsError MefsConfig)
    (st : ClientState) (srv : σ)
    (hcfg : st.mefsConfig.isSome = true) (htok : truthy st.accessToken = true) :
    initializeStorage sign fetch runtimeAvailable validateConfig st srv
      = ⟨.ok (), st, srv, []⟩ := by
  simp [initializeStorage, hcfg, htok]

/-- Witness for C5 at a fully concrete authenticated state. -/
theorem initializeStorage_noop_when_ready_witness :
    initializeStorage signEx fetch401 true (.ok cfgEx) stEx () = ⟨.ok (), stEx, (), []⟩ :=
  initializeStorage_noop_when_ready signEx fetch401 true (.ok cfgEx) stEx ()
    (by decide) (by decide)

/-! ### C3: what stop() and an authorization rejection actually do -/

/-- C3 counterexample: at a concrete authenticated state, `stop()` does
not clear the tokens (it only clears `mefsConfig`), and a 401
authorization rejection during an upload leaves the whole client state
— tokens included — unchanged. -/
theorem stop_retains_tokens_cex :
    ¬ ((stEx.stop.accessToken = none) ∧ (stEx.stop.refreshToken = none)) ∧
    (uploadFile signEx fetch401 stEx () [72] "f.txt" false none).state = stEx := by
  constructor
  · decide
  · decide

/-- C3 amended: `stop()` clears only `mefsConfig`, leaving `accessToken`
and `refreshToken` in place; after `stop()` an upload fails with the
config-not-initialized error (so the session is unusable, but not
because the tokens were cleared); and an authorization-rejection
(non-2xx) response from the remote store during an upload or retrieve
does not clear the session either: with a truthy token held, both calls
leave the client state unchanged whatever the response is. -/
theorem stop_clears_config_only {σ : Type} (sign : String → String → String)
    (fetch : σ → HttpRequest → HttpResponse × σ)
    (st : ClientState) (srv : σ) (b : List Nat) (f cid : String)
    (p : Bool) (k k' : Option String)
    (cfg : MefsConfig) (hcfg : st.mefsConfig = some cfg)
    (t : String) (ht : st.accessToken = some t) (hne : t ≠ "") :
    st.stop.mefsConfig = none ∧
    st.stop.accessToken = st.accessToken ∧
    st.stop.refreshToken = st.refreshToken ∧
    (uploadFile sign fetch st.stop srv b f p k).result = .error .configNotInitialized ∧
    (uploadFile sign fetch st srv b f p k).state = st ∧
    (retrieveFile sign fetch st srv cid k').state = st := by
  refine ⟨rfl, rfl, rfl, ?_, ?_, ?_⟩
  · simp [uploadFile, ClientState.stop]
  · rw [uploadFile_token_present sign fetch st srv b f p k cfg hcfg t ht hne]
    by_cases h : (fetch srv (uploadRequest cfg [("Authorization", "Bearer " ++ t)]
        (buildUploadForm b f p k))).1.ok <;> simp [h]
  · rw [retrieveFile_token_present sign fetch st srv cid k' cfg hcfg t ht hne]
    by_cases h : (fetch srv (retrieveRequest cfg cid k'
        [("Authorization", "Bearer " ++ t)])).1.ok <;> simp [h]

/-- Witness for the amended C3 at a concrete state and a 401 responder. -/
theorem stop_clears_config_only_witness :
    stEx.stop.mefsConfig = none ∧
    stEx.stop.accessToken = stEx.accessToken ∧
    stEx.stop.refreshToken = stEx.refreshToken ∧
    (uploadFile signEx fetch401 stEx.stop () [72] "f.txt" false none).result
      = .error .configNotInitialized ∧
    (uploadFile signEx fetch401 stEx () [72] "f.txt" false none).state = stEx ∧
    (retrieveFile signEx fetch401 stEx () "bafy123" none).state = stEx :=
  stop_clears_config_only signEx fetch401 stEx () [72] "f.txt" "bafy123" false none none
    cfgEx rfl "tok1" rfl (by decide)

/-! ### C7: mutually exclusive upload form flags -/

/-- C7: the multipart body built by `uploadFile` contains the
`public=true` field iff `publicFile` is true, and a `key` field iff
`publicFile` is false and a truthy key was supplied (in JavaScript an
absent or empty `key` is falsy and appends nothing); consequently when
`publicFile` is true no `key` field is sent even if a key was supplied,
and the two fields never appear together. -/
theorem uploadForm_flags (b : List Nat) (f : String) (p : Bool) (k : Option String) :
    ((FormEntry.field "public" "true" ∈ buildUploadForm b f p k) ↔ p = true) ∧
    ((∃ v, FormEntry.field "key" v ∈ buildUploadForm b f p k)
        ↔ (p = false ∧ truthy k = true)) ∧
    ¬ ((∃ v, FormEntry.field "public" v ∈ buildUploadForm b f p k) ∧
       (∃ v, FormEntry.field "key" v ∈ buildUploadForm b f p k)) := by
  cases p <;> cases k <;> simp [buildUploadForm, truthy]

/-- Witness for C7: a public upload with a key supplied sends the
`public=true` field and no `key` field. -/
theorem uploadForm_flags_witness :
    ((FormEntry.field "public" "true" ∈ buildUploadForm [1] "a.txt" true (some "sekrit"))
        ↔ true = true) ∧
    ((∃ v, FormEntry.field "key" v ∈ buildUploadForm [1] "a.txt" true (some "sekrit"))
        ↔ (true = false ∧ truthy (some "sekrit") = true)) ∧
    ¬ ((∃ v, FormEntry.field "public" v ∈ buildUploadForm [1] "a.txt" true (some "sekrit")) ∧
       (∃ v, FormEntry.field "key" v ∈ buildUploadForm [1] "a.txt" true (some "sekrit"))) :=
  uploadForm_flags [1] "a.txt" true (some "sekrit")

/-! ### Protocol-step views of the login exchange -/

/-- The response to the challenge request. -/
def challengeResponse {σ : Type} (fetch : σ → HttpRequest → HttpResponse × σ)
    (cfg : MefsConfig) (srv : σ) : HttpResponse :=
  (fetch srv (challengeRequest cfg)).1

/-- The remote peer state after the challenge request. -/
def challengeServer {σ : Type} (fetch : σ → HttpRequest → HttpResponse × σ)
    (cfg : MefsConfig) (srv : σ) : σ :=
  (fetch srv (challengeRequest cfg)).2

/-- The login exchange request: the challenge text signed verbatim. -/
def loginExchangeRequest {σ : Type} (sign : String → String → String)
    (fetch : σ → HttpRequest → HttpResponse × σ)
    (cfg : MefsConfig) (srv : σ) : HttpRequest :=
  loginRequest cfg (challengeResponse fetch cfg srv).textBody
    (sign cfg.MEFS_PRIVATE_KEY (challengeResponse fetch cfg srv).textBody)

/-- The response to the login exchange request. -/
def loginExchangeResponse {σ : Type} (sign : String → String → String)
    (fetch : σ → HttpRequest → HttpResponse × σ)
    (cfg : MefsConfig) (srv : σ) : HttpResponse :=
  (fetch (challengeServer fetch cfg srv) (loginExchangeRequest sign fetch cfg srv)).1

/-- The remote peer state after the login exchange request. -/
def loginExchangeServer {σ : Type} (sign : String → String → String)
    (fetch : σ → HttpRequest → HttpResponse × σ)
    (cfg : MefsConfig) (srv : σ) : σ :=
  (fetch (challengeServer fetch cfg srv) (loginExchangeRequest sign fetch cfg srv)).2

theorem loginToMEFS_challenge_fail {σ : Type} (sign : String → String → String)
    (fetch : σ → HttpRequest → HttpResponse × σ)
    (st : ClientState) (srv : σ) (cfg : MefsConfig) (hcfg : st.mefsConfig = some cfg)
    (h1 : (challengeResponse fetch cfg srv).ok = false) :
    loginToMEFS sign fetch st srv =
      ⟨.error (.challengeRequestFailed (challengeResponse fetch cfg srv).status
                 (challengeResponse fetch cfg srv).textBody),
       st, challengeServer fetch cfg srv, [challengeRequest cfg]⟩ := by
  simp only [loginToMEFS, hcfg, challengeResponse, challengeServer] at *
  simp [h1]

theorem loginToMEFS_exchange_fail {σ : Type} (sign : String → String → String)
    (fetch : σ → HttpRequest → HttpResponse × σ)
    (st : ClientState) (srv : σ) (cfg : MefsConfig) (hcfg : st.mefsConfig = some cfg)
    (h1 : (challengeResponse fetch cfg srv).ok = true)
    (h2 : (loginExchangeResponse sign fetch cfg srv).ok = false) :
    loginToMEFS sign fetch st srv =
      ⟨.error (.loginFailed (loginExchangeResponse sign fetch cfg srv).status
                 (loginExchangeResponse sign fetch cfg srv).textBody),
       st, loginExchangeServer sign fetch cfg srv,
       [challengeRequest cfg, loginExchangeRequest sign fetch cfg srv]⟩ := by
  simp only [loginToMEFS, hcfg, challengeResponse, challengeServer,
    loginExchangeResponse, loginExchangeRequest, loginExchangeServer] at *
  simp [h1, h2]

theorem loginToMEFS_success {σ : Type} (sign : String → String → String)
    (fetch : σ → HttpRequest → HttpResponse × σ)
    (st : ClientState) (srv : σ) (cfg : MefsConfig) (hcfg : st.mefsConfig = some cfg)
    (h1 : (challengeResponse fetch cfg srv).ok = true)
    (h2 : (loginExchangeResponse sign fetch cfg srv).ok = true) :
    loginToMEFS sign fetch st srv =
      ⟨.ok (),
       { st with accessToken := (loginExchangeResponse sign fetch cfg srv).jsonAccessToken,
                 refreshToken := (loginExchangeResponse sign fetch cfg srv).jsonRefreshToken },
       loginExchangeServer sign fetch cfg srv,
       [challengeRequest cfg, loginExchangeRequest sign fetch cfg srv]⟩ := by
  simp only [loginToMEFS, hcfg, challengeResponse, challengeServer,
    loginExchangeResponse, loginExchangeRequest, loginExchangeServer] at *
  simp [h1, h2]

/-! ### C4: login failure mutates nothing and a retry starts over -/

/-- C4: when the challenge request or the login exchange returns a
non-2xx status, `loginToMEFS` fails with the corresponding error and
the client state — `accessToken` and `refreshToken` included — is
exactly what it was; more generally every failing login leaves the
state untouched; and any `loginToMEFS` call issues the fresh challenge
request first, so a subsequent call re-runs the protocol from the
start rather than resuming partway. -/
theorem loginToMEFS_failure_no_mutation {σ : Type} (sign : String → String → String)
    (fetch : σ → HttpRequest → HttpResponse × σ)
    (st : ClientState) (srv : σ) (cfg : MefsConfig) (hcfg : st.mefsConfig = some cfg) :
    ((challengeResponse fetch cfg srv).ok = false →
       loginToMEFS sign fetch st srv =
         ⟨.error (.challengeRequestFailed (challengeResponse fetch cfg srv).status
                    (challengeResponse fetch cfg srv).textBody),
          st, challengeServer fetch cfg srv, [challengeRequest cfg]⟩) ∧
    ((challengeResponse fetch cfg srv).ok = true →
     (loginExchangeResponse sign fetch cfg srv).ok = false →
       loginToMEFS sign fetch st srv =
         ⟨.error (.loginFailed (loginExchangeResponse sign fetch cfg srv).status
                    (loginExchangeResponse sign fetch cfg srv).textBody),
          st, loginExchangeServer sign fetch cfg srv,
          [challengeRequest cfg, loginExchangeRequest sign fetch cfg srv]⟩) ∧
    (∀ e, (loginToMEFS sign fetch st srv).result = .error e →
       (loginToMEFS sign fetch st srv).state = st) ∧
    (loginToMEFS sign fetch st srv).requests.head? = some (challengeRequest cfg) := by
  refine ⟨loginToMEFS_challenge_fail sign fetch st srv cfg hcfg,
          loginToMEFS_exchange_fail sign fetch st srv cfg hcfg, ?_, ?_⟩
  · intro e he
    by_cases h1 : (challengeResponse fetch cfg srv).ok
    · by_cases h2 : (loginExchangeResponse sign fetch cfg srv).ok
      · rw [loginToMEFS_success sign fetch st srv cfg hcfg h1 h2] at he
        exact absurd he (by simp)
      · rw [loginToMEFS_exchange_fail sign fetch st srv cfg hcfg h1 (by simpa using h2)]
    · rw [loginToMEFS_challenge_fail sign fetch st srv cfg hcfg (by simpa using h1)]
  · by_cases h1 : (challengeResponse fetch cfg srv).ok
    · by_cases h2 : (loginExchangeResponse sign fetch cfg srv).ok
      · rw [loginToMEFS_success sign fetch st srv cfg hcfg h1 h2]; rfl
      · rw [loginToMEFS_exchange_fail sign fetch st srv cfg hcfg h1 (by simpa using h2)]; rfl
    · rw [loginToMEFS_challenge_fail sign fetch st srv cfg hcfg (by simpa using h1)]; rfl

/-- Witness for C4 against a responder that rejects every request with
a 401: the login fails with `challengeRequestFailed 401` and the state
is untouched. -/
theorem loginToMEFS_failure_no_mutation_witness :
    ((challengeResponse fetch401 cfgEx ()).ok = false →
       loginToMEFS signEx fetch401 stEx () =
         ⟨.error (.challengeRequestFailed (challengeResponse fetch401 cfgEx ()).status
                    (challengeResponse fetch401 cfgEx ()).textBody),
          stEx, challengeServer fetch401 cfgEx (), [challengeRequest cfgEx]⟩) ∧
    ((challengeResponse fetch401 cfgEx ()).ok = true →
     (loginExchangeResponse signEx fetch401 cfgEx ()).ok = false →
       loginToMEFS signEx fetch401 stEx () =
         ⟨.error (.loginFailed (loginExchangeResponse signEx fetch401 cfgEx ()).status
                    (loginExchangeResponse signEx fetch401 cfgEx ()).textBody),
          stEx, loginExchangeServer signEx fetch401 cfgEx (),
          [challengeRequest cfgEx, loginExchangeRequest signEx fetch401 cfgEx ()]⟩) ∧
    (∀ e, (loginToMEFS signEx fetch401 stEx ()).result = .error e →
       (loginToMEFS signEx fetch401 stEx ()).state = stEx) ∧
    (loginToMEFS signEx fetch401 stEx ()).requests.head? = some (challengeRequest cfgEx) :=
  loginToMEFS_failure_no_mutation signEx fetch401 stEx () cfgEx rfl

/-! ### C9: non-2xx storage responses become inspectable failures -/

/-- C9: when the upload or retrieve HTTP response has a non-2xx status,
the call fails with `uploadFailed`/`retrieveFailed` carrying exactly
that response's status and body; both error kinds expose the status
and body to inspection, render distinct messages embedding them, and
are distinct from each other; the failure is the call's reported
result, not swallowed. -/
theorem non2xx_storage_failure_reported {σ : Type} (sign : String → String → String)
    (fetch : σ → HttpRequest → HttpResponse × σ)
    (st : ClientState) (srv : σ) (b : List Nat) (f cid : String)
    (p : Bool) (k k' : Option String)
    (cfg : MefsConfig) (hcfg : st.mefsConfig = some cfg)
    (t : String) (ht : st.accessToken = some t) (hne : t ≠ "") :
    (((fetch srv (uploadRequest cfg [("Authorization", "Bearer " ++ t)]
          (buildUploadForm b f p k))).1.ok = false →
       (uploadFile sign fetch st srv b f p k).result =
         .error (.uploadFailed
           (fetch srv (uploadRequest cfg [("Authorization", "Bearer " ++ t)]
              (buildUploadForm b f p k))).1.status
           (fetch srv (uploadRequest cfg [("Authorization", "Bearer " ++ t)]
              (buildUploadForm b f p k))).1.textBody)) ∧
     ((fetch srv (retrieveRequest cfg cid k' [("Authorization", "Bearer " ++ t)])).1.ok
          = false →
       (retrieveFile sign fetch st srv cid k').result =
         .error (.retrieveFailed
           (fetch srv (retrieveRequest cfg cid k'
              [("Authorization", "Bearer " ++ t)])).1.status
           (fetch srv (retrieveRequest cfg cid k'
              [("Authorization", "Bearer " ++ t)])).1.textBody))) ∧
    (∀ s bo, (MefsError.uploadFailed s bo).httpStatus = some s ∧
             (MefsError.uploadFailed s bo).httpBody = some bo ∧
             (MefsError.retrieveFailed s bo).httpStatus = some s ∧
             (MefsError.retrieveFailed s bo).httpBody = some bo ∧
             (MefsError.uploadFailed s bo).message =
               "Failed to upload file: " ++ toString s ++ " " ++ bo ∧
             (MefsError.retrieveFailed s bo).message =
               "Failed to retrieve file: " ++ toString s ++ " " ++ bo) ∧
    (∀ s bo s' bo', MefsError.uploadFailed s bo ≠ MefsError.retrieveFailed s' bo') := by
  refine ⟨⟨?_, ?_⟩, ?_, ?_⟩
  · intro h
    rw [uploadFile_token_present sign fetch st srv b f p k cfg hcfg t ht hne]
    simp [h]
  · intro h
    rw [retrieveFile_token_present sign fetch st srv cid k' cfg hcfg t ht hne]
    simp [h]
  · intro s bo
    exact ⟨rfl, rfl, rfl, rfl, rfl, rfl⟩
  · intro s bo s' bo' h
    exact MefsError.noConfusion h

/-- Witness for C9 against a 401 responder at a concrete state: both
calls report the 401 and its body. -/
theorem non2xx_storage_failure_reported_witness :
    (((fetch401 () (uploadRequest cfgEx [("Authorization", "Bearer " ++ "tok1")]
          (buildUploadForm [72] "f.txt" false none))).1.ok = false →
       (uploadFile signEx fetch401 stEx () [72] "f.txt" false none).result =
         .error (.uploadFailed
           (fetch401 () (uploadRequest cfgEx [("Authorization", "Bearer " ++ "tok1")]
              (buildUploadForm [72] "f.txt" false none))).1.status
           (fetch401 () (uploadRequest cfgEx [("Authorization", "Bearer " ++ "tok1")]
              (buildUploadForm [72] "f.txt" false none))).1.textBody)) ∧
     ((fetch401 () (retrieveRequest cfgEx "bafy123" none
          [("Authorization", "Bearer " ++ "tok1")])).1.ok = false →
       (retrieveFile signEx fetch401 stEx () "bafy123" none).result =
         .error (.retrieveFailed
           (fetch401 () (retrieveRequest cfgEx "bafy123" none
              [("Authorization", "Bearer " ++ "tok1")])).1.status
           (fetch401 () (retrieveRequest cfgEx "bafy123" none
              [("Authorization", "Bearer " ++ "tok1")])).1.textBody))) ∧
    (∀ s bo, (MefsError.uploadFailed s bo).httpStatus = some s ∧
             (MefsError.uploadFailed s bo).httpBody = some bo ∧
             (MefsError.retrieveFailed s bo).httpStatus = some s ∧
             (MefsError.retrieveFailed s bo).httpBody = some bo ∧
             (MefsError.uploadFailed s bo).message =
               "Failed to upload file: " ++ toString s ++ " " ++ bo ∧
             (MefsError.retrieveFailed s bo).message =
               "Failed to retrieve file: " ++ toString s ++ " " ++ bo) ∧
    (∀ s bo s' bo', MefsError.uploadFailed s bo ≠ MefsError.retrieveFailed s' bo') :=
  non2xx_storage_failure_reported signEx fetch401 stEx () [72] "f.txt" "bafy123"
    false none none cfgEx rfl "tok1" rfl (by decide)

/-! ### C1: upload/retrieve round-trip through the content-addressed store -/

/-- C1: against the content-addressed store model, a private
`uploadFile buffer filename` from an authenticated state succeeds and
returns the store's CID for `buffer`, and a subsequent `retrieveFile`
of that CID (run in the state and store the upload left behind)
returns exactly the uploaded bytes. -/
theorem uploadFile_retrieveFile_roundtrip (cidOf : List Nat → String)
    (sign : String → String → String) (cfg : MefsConfig)
    (t : String) (hne : t ≠ "") (rt : Option String)
    (store : List (String × List Nat)) (b : List Nat) (f : String) :
    (uploadFile sign (mefsStoreFetch cidOf cfg.MEFS_API_URL)
        ⟨some cfg, some t, rt⟩ store b f false none).result = .ok (some (cidOf b)) ∧
    (retrieveFile sign (mefsStoreFetch cidOf cfg.MEFS_API_URL)
        (uploadFile sign (mefsStoreFetch cidOf cfg.MEFS_API_URL)
          ⟨some cfg, some t, rt⟩ store b f false none).state
        (uploadFile sign (mefsStoreFetch cidOf cfg.MEFS_API_URL)
          ⟨some cfg, some t, rt⟩ store b f false none).server
        (cidOf b) none).result = .ok b := by
  have hu := uploadFile_token_present sign (mefsStoreFetch cidOf cfg.MEFS_API_URL)
    ⟨some cfg, some t, rt⟩ store b f false none cfg rfl t rfl hne
  have hform : buildUploadForm b f false none =
      [.filePart b f "application/octet-stream"] := by
    simp [buildUploadForm, truthy]
  rw [hform] at hu
  have hfetchU : mefsStoreFetch cidOf cfg.MEFS_API_URL store
      (uploadRequest cfg [("Authorization", "Bearer " ++ t)]
        [.filePart b f "application/octet-stream"]) =
      ({ status := 200, jsonMid := some (cidOf b) }, (cidOf b, b) :: store) := rfl
  rw [hfetchU] at hu
  simp only [HttpResponse.ok] at hu
  norm_num at hu
  rw [hu]
  refine ⟨rfl, ?_⟩
  have hr := retrieveFile_token_present sign (mefsStoreFetch cidOf cfg.MEFS_API_URL)
    ⟨some cfg, some t, rt⟩ ((cidOf b, b) :: store) (cidOf b) none cfg rfl t rfl hne
  have hreq : retrieveRequest cfg (cidOf b) none [("Authorization", "Bearer " ++ t)]
      = { method := .get
        , url := cfg.MEFS_API_URL ++ "/mefs/" ++ cidOf b
        , headers := [("Authorization", "Bearer " ++ t)] } := by
    simp [retrieveRequest, truthy]
  rw [hreq] at hr
  have hfetchR : mefsStoreFetch cidOf cfg.MEFS_API_URL ((cidOf b, b) :: store)
      { method := .get
      , url := cfg.MEFS_API_URL ++ "/mefs/" ++ cidOf b
      , headers := [("Authorization", "Bearer " ++ t)] }
      = ({ status := 200, byteBody := b }, (cidOf b, b) :: store) := by
    simp [mefsStoreFetch, List.find?]
  rw [hfetchR] at hr
  simp only [HttpResponse.ok] at hr
  norm_num at hr
  rw [hr]

/-- Witness for C1: uploading the bytes `[72, 73]` as `hi.txt` against a
store that addresses them as `bafy123` yields that CID, and retrieving
`bafy123` afterwards returns `[72, 73]`. -/
theorem uploadFile_retrieveFile_roundtrip_witness :
    (uploadFile signEx (mefsStoreFetch (fun _ => "bafy123") cfgEx.MEFS_API_URL)
        ⟨some cfgEx, some "tok1", some "ref1"⟩ [] [72, 73] "hi.txt" false none).result
      = .ok (some "bafy123") ∧
    (retrieveFile signEx (mefsStoreFetch (fun _ => "bafy123") cfgEx.MEFS_API_URL)
        (uploadFile signEx (mefsStoreFetch (fun _ => "bafy123") cfgEx.MEFS_API_URL)
          ⟨some cfgEx, some "tok1", some "ref1"⟩ [] [72, 73] "hi.txt" false none).state
        (uploadFile signEx (mefsStoreFetch (fun _ => "bafy123") cfgEx.MEFS_API_URL)
          ⟨some cfgEx, some "tok1", some "ref1"⟩ [] [72, 73] "hi.txt" false none).server
        "bafy123" none).result = .ok [72, 73] :=
  uploadFile_retrieveFile_roundtrip (fun _ => "bafy123") signEx cfgEx "tok1"
    (by decide) (some "ref1") [] [72, 73] "hi.txt"

/-! ### Characterizations of uploadFile/retrieveFile on the login path -/

theorem uploadFile_login_error {σ : Type} (sign : String → String → String)
    (fetch : σ → HttpRequest → HttpResponse × σ)
    (st : ClientState) (srv : σ) (b : List Nat) (f : String) (p : Bool) (k : Option String)
    (cfg : MefsConfig) (hcfg : st.mefsConfig = some cfg)
    (htok : truthy st.accessToken = false)
    (e : MefsError) (he : (loginToMEFS sign fetch st srv).result = .error e) :
    uploadFile sign fetch st srv b f p k =
      ⟨.error e, (loginToMEFS sign fetch st srv).state,
       (loginToMEFS sign fetch st srv).server,
       (loginToMEFS sign fetch st srv).requests⟩ := by
  simp only [uploadFile, hcfg, htok, Bool.false_eq_true, if_false]
  rw [he]

theorem uploadFile_login_ok_still_absent {σ : Type} (sign : String → String → String)
    (fetch : σ → HttpRequest → HttpResponse × σ)
    (st : ClientState) (srv : σ) (b : List Nat) (f : String) (p : Bool) (k : Option String)
    (cfg : MefsConfig) (hcfg : st.mefsConfig = some cfg)
    (htok : truthy st.accessToken = false)
    (he : (loginToMEFS sign fetch st srv).result = .ok ())
    (hta : truthy (loginToMEFS sign fetch st srv).state.accessToken = false) :
    uploadFile sign fetch st srv b f p k =
      ⟨.error .notAuthenticated, (loginToMEFS sign fetch st srv).state,
       (loginToMEFS sign fetch st srv).server,
       (loginToMEFS sign fetch st srv).requests⟩ := by
  simp only [uploadFile, hcfg, htok, Bool.false_eq_true, if_false]
  rw [he, getAuthHeaders_absent _ hta]

theorem uploadFile_login_ok_token {σ : Type} (sign : String → String → String)
    (fetch : σ → HttpRequest → HttpResponse × σ)
    (st : ClientState) (srv : σ) (b : List Nat) (f : String) (p : Bool) (k : Option String)
    (cfg : MefsConfig) (hcfg : st.mefsConfig = some cfg)
    (htok : truthy st.accessToken = false)
    (he : (loginToMEFS sign fetch st srv).result = .ok ())
    (t : String) (ht : (loginToMEFS sign fetch st srv).state.accessToken = some t)
    (hne : t ≠ "") :
    (uploadFile sign fetch st srv b f p k).requests =
      (loginToMEFS sign fetch st srv).requests ++
        [uploadRequest cfg [("Authorization", "Bearer " ++ t)] (buildUploadForm b f p k)] := by
  simp only [uploadFile, hcfg, htok, Bool.false_eq_true, if_false]
  rw [he, getAuthHeaders_some _ t ht hne]
  by_cases h : (fetch (loginToMEFS sign fetch st srv).server
      (uploadRequest cfg [("Authorization", "Bearer " ++ t)]
        (buildUploadForm b f p k))).1.ok <;> simp [h]

theorem retrieveFile_login_error {σ : Type} (sign : String → String → String)
    (fetch : σ → HttpRequest → HttpResponse × σ)
    (st : ClientState) (srv : σ) (cid : String) (k : Option String)
    (cfg : MefsConfig) (hcfg : st.mefsConfig = some cfg)
    (htok : truthy st.accessToken = false)
    (e : MefsError) (he : (loginToMEFS sign fetch st srv).result = .error e) :
    retrieveFile sign fetch st srv cid k =
      ⟨.error e, (loginToMEFS sign fetch st srv).state,
       (loginToMEFS sign fetch st srv).server,
       (loginToMEFS sign fetch st srv).requests⟩ := by
  simp only [retrieveFile, hcfg, htok, Bool.false_eq_true, if_false]
  rw [he]

theorem retrieveFile_login_ok_still_absent {σ : Type} (sign : String → String → String)
    (fetch : σ → HttpRequest → HttpResponse × σ)
    (st : ClientState) (srv : σ) (cid : String) (k : Option String)
    (cfg : MefsConfig) (hcfg : st.mefsConfig = some cfg)
    (htok : truthy st.accessToken = false)
    (he : (loginToMEFS sign fetch st srv).result = .ok ())
    (hta : truthy (loginToMEFS sign fetch st srv).state.accessToken = false) :
    retrieveFile sign fetch st srv cid k =
      ⟨.error .notAuthenticated, (loginToMEFS sign fetch st srv).state,
       (loginToMEFS sign fetch st srv).server,
       (loginToMEFS sign fetch st srv).requests⟩ := by
  simp only [retrieveFile, hcfg, htok, Bool.false_eq_true, if_false]
  rw [he, getAuthHeaders_absent _ hta]

theorem retrieveFile_login_ok_token {σ : Type} (sign : String → String → String)
    (fetch : σ → HttpRequest → HttpResponse × σ)
    (st : ClientState) (srv : σ) (cid : String) (k : Option String)
    (cfg : MefsConfig) (hcfg : st.mefsConfig = some cfg)
    (htok : truthy st.accessToken = false)
    (he : (loginToMEFS sign fetch st srv).result = .ok ())
    (t : String) (ht : (loginToMEFS sign fetch st srv).state.accessToken = some t)
    (hne : t ≠ "") :
    (retrieveFile sign fetch st srv cid k).requests =
      (loginToMEFS sign fetch st srv).requests ++
        [retrieveRequest cfg cid k [("Authorization", "Bearer " ++ t)]] := by
  simp only [retrieveFile, hcfg, htok, Bool.false_eq_true, if_false]
  rw [he, getAuthHeaders_some _ t ht hne]
  by_cases h : (fetch (loginToMEFS sign fetch st srv).server
      (retrieveRequest cfg cid k [("Authorization", "Bearer " ++ t)])).1.ok <;> simp [h]

theorem uploadFile_auth_invariant {σ : Type} (sign : String → String → String)
    (fetch : σ → HttpRequest → HttpResponse × σ)
    (st : ClientState) (srv : σ) (b : List Nat) (f : String) (p : Bool) (k : Option String)
    (cfg : MefsConfig) (hcfg : st.mefsConfig = some cfg) :
    (truthy st.accessToken = true →
       ∃ t, st.accessToken = some t ∧ t ≠ "" ∧
         (uploadFile sign fetch st srv b f p k).requests =
           [uploadRequest cfg [("Authorization", "Bearer " ++ t)]
              (buildUploadForm b f p k)]) ∧
    (truthy st.accessToken = false →
       (∀ e, (loginToMEFS sign fetch st srv).result = .error e →
          (uploadFile sign fetch st srv b f p k).result = .error e ∧
          (uploadFile sign fetch st srv b f p k).requests =
            (loginToMEFS sign fetch st srv).requests) ∧
       ((loginToMEFS sign fetch st srv).result = .ok () →
          (truthy (loginToMEFS sign fetch st srv).state.accessToken = true →
             ∃ t, (loginToMEFS sign fetch st srv).state.accessToken = some t ∧ t ≠ "" ∧
               (uploadFile sign fetch st srv b f p k).requests =
                 (loginToMEFS sign fetch st srv).requests ++
                   [uploadRequest cfg [("Authorization", "Bearer " ++ t)]
                      (buildUploadForm b f p k)]) ∧
          (truthy (loginToMEFS sign fetch st srv).state.accessToken = false →
             (uploadFile sign fetch st srv b f p k).result = .error .notAuthenticated ∧
             (uploadFile sign fetch st srv b f p k).requests =
               (loginToMEFS sign fetch st srv).requests))) := by
  constructor
  · intro htok
    obtain ⟨t, ht, hne⟩ := truthy_exists htok
    refine ⟨t, ht, hne, ?_⟩
    rw [uploadFile_token_present sign fetch st srv b f p k cfg hcfg t ht hne]
    by_cases h : (fetch srv (uploadRequest cfg [("Authorization", "Bearer " ++ t)]
        (buildUploadForm b f p k))).1.ok <;> simp [h]
  · intro htok
    constructor
    · intro e he
      rw [uploadFile_login_error sign fetch st srv b f p k cfg hcfg htok e he]
      exact ⟨rfl, rfl⟩
    · intro he
      constructor
      · intro hta
        obtain ⟨t, ht, hne⟩ := truthy_exists hta
        exact ⟨t, ht, hne,
          uploadFile_login_ok_token sign fetch st srv b f p k cfg hcfg htok he t ht hne⟩
      · intro hta
        rw [uploadFile_login_ok_still_absent sign fetch st srv b f p k cfg hcfg htok he hta]
        exact ⟨rfl, rfl⟩

theorem retrieveFile_auth_invariant {σ : Type} (sign : String → String → String)
    (fetch : σ → HttpRequest → HttpResponse × σ)
    (st : ClientState) (srv : σ) (cid : String) (k : Option String)
    (cfg : MefsConfig) (hcfg : st.mefsConfig = some cfg) :
    (truthy st.accessToken = true →
       ∃ t, st.accessToken = some t ∧ t ≠ "" ∧
         (retrieveFile sign fetch st srv cid k).requests =
           [retrieveRequest cfg cid k [("Authorization", "Bearer " ++ t)]]) ∧
    (truthy st.accessToken = false →
       (∀ e, (loginToMEFS sign fetch st srv).result = .error e →
          (retrieveFile sign fetch st srv cid k).result = .error e ∧
          (retrieveFile sign fetch st srv cid k).requests =
            (loginToMEFS sign fetch st srv).requests) ∧
       ((loginToMEFS sign fetch st srv).result = .ok () →
          (truthy (loginToMEFS sign fetch st srv).state.accessToken = true →
             ∃ t, (loginToMEFS sign fetch st srv).state.accessToken = some t ∧ t ≠ "" ∧
               (retrieveFile sign fetch st srv cid k).requests =
                 (loginToMEFS sign fetch st srv).requests ++
                   [retrieveRequest cfg cid k [("Authorization", "Bearer " ++ t)]]) ∧
          (truthy (loginToMEFS sign fetch st srv).state.accessToken = false →
             (retrieveFile sign fetch st srv cid k).result = .error .notAuthenticated ∧
             (retrieveFile sign fetch st srv cid k).requests =
               (loginToMEFS sign fetch st srv).requests))) := by
  constructor
  · intro htok
    obtain ⟨t, ht, hne⟩ := truthy_exists htok
    refine ⟨t, ht, hne, ?_⟩
    rw [retrieveFile_token_present sign fetch st srv cid k cfg hcfg t ht hne]
    by_cases h : (fetch srv (retrieveRequest cfg cid k
        [("Authorization", "Bearer " ++ t)])).1.ok <;> simp [h]
  · intro htok
    constructor
    · intro e he
      rw [retrieveFile_login_error sign fetch st srv cid k cfg hcfg htok e he]
      exact ⟨rfl, rfl⟩
    · intro he
      constructor
      · intro hta
        obtain ⟨t, ht, hne⟩ := truthy_exists hta
        exact ⟨t, ht, hne,
          retrieveFile_login_ok_token sign fetch st srv cid k cfg hcfg htok he t ht hne⟩
      · intro hta
        rw [retrieveFile_login_ok_still_absent sign fetch st srv cid k cfg hcfg htok he hta]
        exact ⟨rfl, rfl⟩

/-! ### C2: every storage request carries a non-empty bearer token -/

/-- C2: for both `uploadFile` and `retrieveFile`: when a truthy access
token is held, the single request sent is the storage request and it
carries `Authorization: Bearer` with that non-empty token; when no
truthy token is held, the full login protocol runs first — if it fails,
the call fails with the login error having sent only the login-protocol
requests; if it succeeds and yields a truthy token, the storage request
follows the login requests and bears the fresh non-empty token; and if
a token is still absent after the login, the call fails with
`notAuthenticated` without sending the storage request. -/
theorem storage_requests_bear_token {σ : Type} (sign : String → String → String)
    (fetch : σ → HttpRequest → HttpResponse × σ)
    (st : ClientState) (srv : σ) (b : List Nat) (f cid : String)
    (p : Bool) (k k' : Option String)
    (cfg : MefsConfig) (hcfg : st.mefsConfig = some cfg) :
    ((truthy st.accessToken = true →
       ∃ t, st.accessToken = some t ∧ t ≠ "" ∧
         (uploadFile sign fetch st srv b f p k).requests =
           [uploadRequest cfg [("Authorization", "Bearer " ++ t)]
              (buildUploadForm b f p k)]) ∧
     (truthy st.accessToken = false →
       (∀ e, (loginToMEFS sign fetch st srv).result = .error e →
          (uploadFile sign fetch st srv b f p k).result = .error e ∧
          (uploadFile sign fetch st srv b f p k).requests =
            (loginToMEFS sign fetch st srv).requests) ∧
       ((loginToMEFS sign fetch st srv).result = .ok () →
          (truthy (loginToMEFS sign fetch st srv).state.accessToken = true →
             ∃ t, (loginToMEFS sign fetch st srv).state.accessToken = some t ∧ t ≠ "" ∧
               (uploadFile sign fetch st srv b f p k).requests =
                 (loginToMEFS sign fetch st srv).requests ++
                   [uploadRequest cfg [("Authorization", "Bearer " ++ t)]
                      (buildUploadForm b f p k)]) ∧
          (truthy (loginToMEFS sign fetch st srv).state.accessToken = false →
             (uploadFile sign fetch st srv b f p k).result = .error .notAuthenticated ∧
             (uploadFile sign fetch st srv b f p k).requests =
               (loginToMEFS sign fetch st srv).requests)))) ∧
    ((truthy st.accessToken = true →
       ∃ t, st.accessToken = some t ∧ t ≠ "" ∧
         (retrieveFile sign fetch st srv cid k').requests =
           [retrieveRequest cfg cid k' [("Authorization", "Bearer " ++ t)]]) ∧
     (truthy st.accessToken = false →
       (∀ e, (loginToMEFS sign fetch st srv).result = .error e →
          (retrieveFile sign fetch st srv cid k').result = .error e ∧
          (retrieveFile sign fetch st srv cid k').requests =
            (loginToMEFS sign fetch st srv).requests) ∧
       ((loginToMEFS sign fetch st srv).result = .ok () →
          (truthy (loginToMEFS sign fetch st srv).state.accessToken = true →
             ∃ t, (loginToMEFS sign fetch st srv).state.accessToken = some t ∧ t ≠ "" ∧
               (retrieveFile sign fetch st srv cid k').requests =
                 (loginToMEFS sign fetch st srv).requests ++
                   [retrieveRequest cfg cid k' [("Authorization", "Bearer " ++ t)]]) ∧
          (truthy (loginToMEFS sign fetch st srv).state.accessToken = false →
             (retrieveFile sign fetch st srv cid k').result = .error .notAuthenticated ∧
             (retrieveFile sign fetch st srv cid k').requests =
               (loginToMEFS sign fetch st srv).requests)))) :=
  ⟨uploadFile_auth_invariant sign fetch st srv b f p k cfg hcfg,
   retrieveFile_auth_invariant sign fetch st srv cid k' cfg hcfg⟩

/-- An unauthenticated client state holding a validated configuration. -/
def stU : ClientState := ⟨some cfgEx, none, none⟩

/-- Witness for C2 at an unauthenticated state against an accepting
responder, exercising the login-first path. -/
theorem storage_requests_bear_token_witness :
    ((truthy stU.accessToken = true →
       ∃ t, stU.accessToken = some t ∧ t ≠ "" ∧
         (uploadFile signEx fetchOk stU () [72] "f.txt" false none).requests =
           [uploadRequest cfgEx [("Authorization", "Bearer " ++ t)]
              (buildUploadForm [72] "f.txt" false none)]) ∧
     (truthy stU.accessToken = false →
       (∀ e, (loginToMEFS signEx fetchOk stU ()).result = .error e →
          (uploadFile signEx fetchOk stU () [72] "f.txt" false none).result = .error e ∧
          (uploadFile signEx fetchOk stU () [72] "f.txt" false none).requests =
            (loginToMEFS signEx fetchOk stU ()).requests) ∧
       ((loginToMEFS signEx fetchOk stU ()).result = .ok () →
          (truthy (loginToMEFS signEx fetchOk stU ()).state.accessToken = true →
             ∃ t, (loginToMEFS signEx fetchOk stU ()).state.accessToken = some t ∧ t ≠ "" ∧
               (uploadFile signEx fetchOk stU () [72] "f.txt" false none).requests =
                 (loginToMEFS signEx fetchOk stU ()).requests ++
                   [uploadRequest cfgEx [("Authorization", "Bearer " ++ t)]
                      (buildUploadForm [72] "f.txt" false none)]) ∧
          (truthy (loginToMEFS signEx fetchOk stU ()).state.accessToken = false →
             (uploadFile signEx fetchOk stU () [72] "f.txt" false none).result
               = .error .notAuthenticated ∧
             (uploadFile signEx fetchOk stU () [72] "f.txt" false none).requests =
               (loginToMEFS signEx fetchOk stU ()).requests)))) ∧
    ((truthy stU.accessToken = true →
       ∃ t, stU.accessToken = some t ∧ t ≠ "" ∧
         (retrieveFile signEx fetchOk stU () "bafy123" none).requests =
           [retrieveRequest cfgEx "bafy123" none [("Authorization", "Bearer " ++ t)]]) ∧
     (truthy stU.accessToken = false →
       (∀ e, (loginToMEFS signEx fetchOk stU ()).result = .error e →
          (retrieveFile signEx fetchOk stU () "bafy123" none).result = .error e ∧
          (retrieveFile signEx fetchOk stU () "bafy123" none).requests =
            (loginToMEFS signEx fetchOk stU ()).requests) ∧
       ((loginToMEFS signEx fetchOk stU ()).result = .ok () →
          (truthy (loginToMEFS signEx fetchOk stU ()).state.accessToken = true →
             ∃ t, (loginToMEFS signEx fetchOk stU ()).state.accessToken = some t ∧ t ≠ "" ∧
               (retrieveFile signEx fetchOk stU () "bafy123" none).requests =
                 (loginToMEFS signEx fetchOk stU ()).requests ++
                   [retrieveRequest cfgEx "bafy123" none
                      [("Authorization", "Bearer " ++ t)]]) ∧
          (truthy (loginToMEFS signEx fetchOk stU ()).state.accessToken = false →
             (retrieveFile signEx fetchOk stU () "bafy123" none).result
               = .error .notAuthenticated ∧
             (retrieveFile signEx fetchOk stU () "bafy123" none).requests =
               (loginToMEFS signEx fetchOk stU ()).requests)))) :=
  storage_requests_bear_token signEx fetchOk stU () [72] "f.txt" "bafy123"
    false none none cfgEx rfl

/-! ### C6: what key validation actually accepts -/

/-- C6 counterexample: the schema rejects a `0x`-prefixed key whose
stripped remainder is exactly 64 hex characters — so validation does
not strip `0x` as claimed — and `privateKeyToAddress` passes the
wrong-length hex key `"abc"` through its own format check, failing only
inside the wallet with a wrapped conversion error instead of the
claimed key-format error. -/
theorem privateKey_validation_cex :
    ¬ (storageClientEnvSchemaKeyOk ("0x" ++ hex64Ex) = true ↔
       storageClientEnvSchemaKeyOk (cleanHexKey ("0x" ++ hex64Ex)) = true) ∧
    privateKeyToAddress walletEx "abc" = .error (.walletError "invalid private key") := by
  constructor
  · decide
  · rfl

/-- C6 amended: the env schema accepts `MEFS_PRIVATE_KEY` only as bare
64-hex — any `0x`-prefixed string is rejected; `privateKeyToAddress`
separately strips an optional `0x` and its own validation only requires
the remainder to be non-empty hex of any length: empty input fails with
the empty-key error, a non-hex remainder fails with the hex-format
error, and any non-empty hex remainder — whatever its length — is
handed to the wallet, whose failure surfaces as a wrapped wallet
error. -/
theorem privateKey_validation_amended (w : String → Except String String)
    (s : String) (hne : s ≠ "") :
    (∀ r : String, storageClientEnvSchemaKeyOk ("0x" ++ r) = false) ∧
    (nonEmptyHex (cleanHexKey s) = false →
       privateKeyToAddress w s = .error .invalidHexFormat) ∧
    (nonEmptyHex (cleanHexKey s) = true →
       privateKeyToAddress w s =
         match w ("0x" ++ cleanHexKey s) with
         | .ok a => .ok a
         | .error m => .error (.walletError m)) ∧
    privateKeyToAddress w "" = .error .emptyKey := by
  have h0x : "0x".data = ['0', 'x'] := rfl
  have hx : isHexDigit 'x' = false := by decide
  refine ⟨?_, ?_, ?_, ?_⟩
  · intro r
    simp [storageClientEnvSchemaKeyOk, String.data_append, h0x, hx]
  · intro h
    simp [privateKeyToAddress, hne, h]
  · intro h
    simp [privateKeyToAddress, hne, h]
  · simp [privateKeyToAddress]

/-- Witness for the amended C6 at the wallet model and the wrong-length
key `"abc"`. -/
theorem privateKey_validation_amended_witness :
    (∀ r : String, storageClientEnvSchemaKeyOk ("0x" ++ r) = false) ∧
    (nonEmptyHex (cleanHexKey "abc") = false →
       privateKeyToAddress walletEx "abc" = .error .invalidHexFormat) ∧
    (nonEmptyHex (cleanHexKey "abc") = true →
       privateKeyToAddress walletEx "abc" =
         match walletEx ("0x" ++ cleanHexKey "abc") with
         | .ok a => .ok a
         | .error m => .error (.walletError m)) ∧
    privateKeyToAddress walletEx "" = .error .emptyKey :=
  privateKey_validation_amended walletEx "abc" (by decide)

/-! ### C8: batch retrieval isolates per-CID failures -/

theorem retrieveLoop_reports (retrieve : String → Except MefsError (List Nat)) :
    ∀ (cids : List String) (c : String), c ∈ cids →
      (∃ bs, retrieve c = .ok bs ∧ (c, bs) ∈ (retrieveLoop retrieve cids).1) ∨
      ((∃ e, retrieve c = .error e) ∧ c ∈ (retrieveLoop retrieve cids).2) := by
  intro cids
  induction cids with
  | nil => intro c hc; cases hc
  | cons cid rest ih =>
    intro c hc
    rcases List.mem_cons.mp hc with hceq | hcrest
    · subst hceq
      cases hval : retrieve c with
      | ok bs => exact .inl ⟨bs, rfl, by simp [retrieveLoop, hval]⟩
      | error e => exact .inr ⟨⟨e, rfl⟩, by simp [retrieveLoop, hval]⟩
    · cases hval : retrieve cid with
      | ok bs =>
        rcases ih c hcrest with ⟨bs', hv, hm⟩ | ⟨hv, hm⟩
        · exact .inl ⟨bs', hv, by simp [retrieveLoop, hval, hm]⟩
        · exact .inr ⟨hv, by simp [retrieveLoop, hval, hm]⟩
      | error e =>
        rcases ih c hcrest with ⟨bs', hv, hm⟩ | ⟨hv, hm⟩
        · exact .inl ⟨bs', hv, by simp [retrieveLoop, hval, hm]⟩
        · exact .inr ⟨hv, by simp [retrieveLoop, hval, hm]⟩

theorem retrieveLoop_fst_ne_nil_iff (retrieve : String → Except MefsError (List Nat)) :
    ∀ cids : List String,
      (retrieveLoop retrieve cids).1 ≠ [] ↔ ∃ c ∈ cids, ∃ bs, retrieve c = .ok bs := by
  intro cids
  induction cids with
  | nil => simp [retrieveLoop]
  | cons cid rest ih =>
    cases hval : retrieve cid with
    | ok bs => simp [retrieveLoop, hval]
    | error e =>
      simp only [retrieveLoop, hval]
      rw [ih]
      constructor
      · rintro ⟨c, hc, h⟩
        exact ⟨c, List.mem_cons_of_mem _ hc, h⟩
      · rintro ⟨c, hc, h⟩
        rcases List.mem_cons.mp hc with hceq | hcrest
        · subst hceq; rw [hval] at h; rcases h with ⟨_, h⟩; cases h
        · exact ⟨c, hcrest, h⟩

/-- C8: with the service available and initialized, the retrieve action
attempts every CID of a non-empty batch and reports each one
individually — a successful CID appears with its bytes in the
retrieved list and a failing CID appears in the not-found list, however
the other CIDs fared — and the action as a whole succeeds exactly when
at least one CID was retrieved. -/
theorem retrieve_batch_isolation (retrieve : String → Except MefsError (List Nat))
    (cids : List String) (hne : cids ≠ []) :
    (∀ c ∈ cids,
       (∃ bs, retrieve c = .ok bs ∧
          (c, bs) ∈ (retrieveHandler true (.ok ()) retrieve cids).retrieved) ∨
       ((∃ e, retrieve c = .error e) ∧
          c ∈ (retrieveHandler true (.ok ()) retrieve cids).notFound)) ∧
    ((retrieveHandler true (.ok ()) retrieve cids).success = true ↔
       ∃ c ∈ cids, ∃ bs, retrieve c = .ok bs) := by
  have hR : retrieveHandler true (.ok ()) retrieve cids =
      (if (retrieveLoop retrieve cids).1 = []
       then ⟨false, (retrieveLoop retrieve cids).1, (retrieveLoop retrieve cids).2⟩
       else ⟨true, (retrieveLoop retrieve cids).1, (retrieveLoop retrieve cids).2⟩) := by
    simp [retrieveHandler, hne]
  constructor
  · intro c hc
    rcases retrieveLoop_reports retrieve cids c hc with ⟨bs, hv, hm⟩ | ⟨hv, hm⟩
    · refine .inl ⟨bs, hv, ?_⟩
      rw [hR]
      by_cases h : (retrieveLoop retrieve cids).1 = []
      · rw [h] at hm; cases hm
      · simp [h, hm]
    · refine .inr ⟨hv, ?_⟩
      rw [hR]
      by_cases h : (retrieveLoop retrieve cids).1 = [] <;> simp [h, hm]
  · rw [hR, ← retrieveLoop_fst_ne_nil_iff retrieve cids]
    by_cases h : (retrieveLoop retrieve cids).1 = [] <;> simp [h]

/-- The per-CID oracle used by the C8 witness: CID `"B"` is missing
remotely, every other CID retrieves. -/
def retrieveBEx : String → Except MefsError (List Nat) :=
  fun c => if c = "B" then .error (.retrieveFailed 404 "file not found") else .ok [1, 2]

/-- Witness for C8 on the batch `[A, B, C]` with `B` missing: `A` and
`C` are retrieved, `B` is reported not found, and the action
succeeds. -/
theorem retrieve_batch_isolation_witness :
    (∀ c ∈ ["A", "B", "C"],
       (∃ bs, retrieveBEx c = .ok bs ∧
          (c, bs) ∈ (retrieveHandler true (.ok ()) retrieveBEx ["A", "B", "C"]).retrieved) ∨
       ((∃ e, retrieveBEx c = .error e) ∧
          c ∈ (retrieveHandler true (.ok ()) retrieveBEx ["A", "B", "C"]).notFound)) ∧
    ((retrieveHandler true (.ok ()) retrieveBEx ["A", "B", "C"]).success = true ↔
       ∃ c ∈ ["A", "B", "C"], ∃ bs, retrieveBEx c = .ok bs) :=
  retrieve_batch_isolation retrieveBEx ["A", "B", "C"] (by decide)

/-! ### C10: absent attachments vs present-but-empty attachments -/

theorem uploadResponsesLoop_no_texts (upload : List Nat → String → Except MefsError String)
    (respName : Nat → String) :
    ∀ (i : Nat) (rs : List ResponseMemory), (∀ r ∈ rs, truthy r.text = false) →
      uploadResponsesLoop upload respName i rs = .ok [] := by
  intro i rs
  induction rs generalizing i with
  | nil => intro _; rfl
  | cons r rest ih =>
    intro h
    have hr : truthy r.text = false := h r (List.mem_cons_self r rest)
    have hrest : ∀ x ∈ rest, truthy x.text = false :=
      fun x hx => h x (List.mem_cons_of_mem r hx)
    simp [uploadResponsesLoop, hr, ih i hrest]

/-- C10: the upload action's missing-file guard fires exactly when
`attachments` is a present, empty array — for any inputs,
`attachments = some []` short-circuits into failure — while an absent
`attachments` field skips the guard entirely: with the service
available and initialized, no attachments at all and no truthy response
texts, the handler succeeds with an empty CID list. -/
theorem upload_absent_attachments_success
    (readFile : String → List Nat) (upload : List Nat → String → Except MefsError String)
    (respName : Nat → String) (responses : List ResponseMemory)
    (hr : ∀ r ∈ responses, truthy r.text = false) :
    uploadHandler true (.ok ()) readFile upload respName none responses = ⟨true, []⟩ ∧
    (∀ (sa : Bool) (ir : Except MefsError Unit) (rf : String → List Nat)
       (up : List Nat → String → Except MefsError String) (rn : Nat → String)
       (rs : List ResponseMemory),
       uploadHandler sa ir rf up rn (some []) rs = ⟨false, []⟩) := by
  constructor
  · simp [uploadHandler, uploadAttachmentsLoop,
      uploadResponsesLoop_no_texts upload respName 0 responses hr]
  · intro sa ir rf up rn rs
    rfl

/-- Witness for C10 with two non-uploadable responses (`undefined` text
and empty text). -/
theorem upload_absent_attachments_success_witness :
    uploadHandler true (.ok ()) (fun _ => []) (fun _ _ => .ok "bafy123")
      (fun _ => "response.txt") none [⟨none⟩, ⟨some ""⟩] = ⟨true, []⟩ ∧
    (∀ (sa : Bool) (ir : Except MefsError Unit) (rf : String → List Nat)
       (up : List Nat → String → Except MefsError String) (rn : Nat → String)
       (rs : List ResponseMemory),
       uploadHandler sa ir rf up rn (some []) rs = ⟨false, []⟩) :=
  upload_absent_attachments_success (fun _ => []) (fun _ _ => .ok "bafy123")
    (fun _ => "response.txt") [⟨none⟩, ⟨some ""⟩] (by decide)
